import Mathlib

/-!
Verification of the forgekit developer-utility repository against its
natural-language specification.

The Python sources are shallowly embedded: each relevant Python function is
translated into an executable Lean definition, and the spec's claims are
settled as theorems about those definitions.

Modules covered:
* `Docweaver` — the auto-docstring generator (`docweaver.py`):
  parameter extraction, skeleton synthesis and the AST transformer.
* `Garnish` — instrumentation decorators (`garnish.py`): the scope
  resolver, the argument-type reporter and the Timer/Profiler context
  managers.
* `Banner` — the console banner printer (`banner.py`).
* `Logman` — logger initialisation and run-metadata collection
  (`logman.py`).
-/

namespace Docweaver

/-- One formal parameter of a Python function: its name and, if present, its
type annotation already rendered to source text (in the source,
`ast_to_source` renders the annotation expression via `ast.unparse`). -/
structure PyArg where
  arg : String
  ann : Option String
deriving DecidableEq, Repr

/-- The `ast.arguments` record of a Python `FunctionDef`: positional-only,
regular, `*args`, keyword-only and `**kwargs` parameters. -/
structure PyArguments where
  posonlyargs : List PyArg
  args : List PyArg
  vararg : Option PyArg
  kwonlyargs : List PyArg
  kwarg : Option PyArg
deriving DecidableEq, Repr

/-- A Python statement, restricted to the shapes `docweaver.py` inspects.
`exprConst s` is an expression statement whose value is a string constant
(the docstring shape recognised by `ast.get_docstring`); `exprOther` is any
other expression statement; `passStmt` is `pass`; `funcDef`/`asyncFuncDef`
carry name, arguments, the rendered return annotation (if any) and the body;
`classDef` carries name and body; `otherStmt` is any other statement. -/
inductive Stmt where
  | exprConst (s : String)
  | exprOther
  | passStmt
  | funcDef (name : String) (args : PyArguments) (returns : Option String) (body : List Stmt)
  | asyncFuncDef (name : String) (args : PyArguments) (returns : Option String) (body : List Stmt)
  | classDef (name : String) (body : List Stmt)
  | otherStmt
deriving Repr

/-- `ast.get_docstring(node)`: the docstring of a definition body, present
exactly when the first statement is an expression statement holding a string
constant. (The Python helper additionally cleans the text; only presence
matters to `docweaver.py`, which tests the result against `None`.) -/
def get_docstring : List Stmt → Option String
  | Stmt.exprConst s :: _ => some s
  | _ => none

/-- Python `str.capitalize()`: first character upper-cased, the rest
lower-cased (ASCII model). -/
def pyCapitalize (s : String) : String :=
  match s.data with
  | [] => ""
  | c :: cs => String.mk (c.toUpper :: cs.map Char.toLower)

/-- `name.replace(Char.ofNat 95, Char.ofNat 32)` in the source: every
underscore replaced by a space. -/
def replaceUnderscores (s : String) : String :=
  s.map fun c => if c = '_' then ' ' else c

/-- `extract_parameters` of `docweaver.py`: parameter (name, rendered
annotation) pairs in the order positional-only, regular, `*args` (name
prefixed with one star), keyword-only, `**kwargs` (name prefixed with two
stars). -/
def extract_parameters (a : PyArguments) : List (String × Option String) :=
  a.posonlyargs.map (fun x => (x.arg, x.ann))
    ++ a.args.map (fun x => (x.arg, x.ann))
    ++ (match a.vararg with
        | some x => [("*" ++ x.arg, x.ann)]
        | none => [])
    ++ a.kwonlyargs.map (fun x => (x.arg, x.ann))
    ++ (match a.kwarg with
        | some x => [("**" ++ x.arg, x.ann)]
        | none => [])

/-- The fixed boilerplate sentence of a generated function docstring. -/
def autoNote : String :=
  "This is an auto-generated docstring skeleton. Please update the description and parameter details as appropriate."

/-- The summary line of `generate_function_docstring`: constructor methods,
other methods and free functions each get their own form. -/
def docstring_summary (name : String) (parent_class : Option String) : String :=
  match parent_class with
  | some pc =>
      if name = "__init__" then "Initialise an instance of `" ++ pc ++ "`."
      else "Method `" ++ name ++ "` of `" ++ pc ++ "`."
  | none => pyCapitalize (replaceUnderscores name) ++ "."

/-- The `doc_params` list comprehension of `generate_function_docstring`:
when the definition is a method, every parameter named `self` or `cls` is
filtered out. -/
def doc_params (params : List (String × Option String)) (is_method : Bool) :
    List (String × Option String) :=
  params.filter fun p => !(is_method && (p.1 == "self" || p.1 == "cls"))

/-- One line of the Args section, for a parameter with or without an
annotation. -/
def param_line (p : String × Option String) : String :=
  match p.2 with
  | some a => "    " ++ p.1 ++ " (" ++ a ++ "): TODO: describe parameter."
  | none => "    " ++ p.1 ++ ": TODO: describe parameter."

/-- The Args section appended by `generate_function_docstring` when
`doc_params` is non-empty. -/
def args_section (dps : List (String × Option String)) : List String :=
  if dps.isEmpty then [] else ["", "Args:"] ++ dps.map param_line

/-- The Returns section: appended when the rendered return annotation is
truthy (non-empty, since a rendered expression is never the empty string)
and its lower-cased text differs from the word none. -/
def returns_section (return_ann : Option String) : List String :=
  match return_ann with
  | some ra =>
      if ra ≠ "" && ra.toLower ≠ "none" then
        ["", "Returns:", "    " ++ ra ++ ": TODO: describe return value."]
      else []
  | none => []

/-- The list of lines assembled by `generate_function_docstring` before
joining with newlines. -/
def generate_function_docstring_lines (name : String) (a : PyArguments)
    (returns : Option String) (parent_class : Option String) : List String :=
  let params := extract_parameters a
  let is_method := parent_class.isSome
  [docstring_summary name parent_class, "", autoNote]
    ++ args_section (doc_params params is_method)
    ++ returns_section returns

/-- `generate_function_docstring` of `docweaver.py`. -/
def generate_function_docstring (name : String) (a : PyArguments)
    (returns : Option String) (parent_class : Option String) : String :=
  String.intercalate "\n" (generate_function_docstring_lines name a returns parent_class)

/-- `generate_class_docstring` of `docweaver.py`. -/
def generate_class_docstring (name : String) : String :=
  String.intercalate "\n"
    [name ++ " class.",
     "This is an auto-generated docstring skeleton. Please update the description, attributes, and examples as needed."]

mutual

/-- The `DocstringInjector` transformer on one statement. `stack` is the
class-name stack, innermost class first (the source appends to a list and
reads its last element). The source inserts the skeleton and then calls
`generic_visit`, which maps the visitor over the (extended) body; since the
visitor is the identity on expression statements, this equals transforming
the original body and prepending the skeleton, as written here. -/
def transformStmt (stack : List String) : Stmt → Stmt
  | Stmt.funcDef n a r body =>
      let newBody :=
        if (get_docstring body).isNone && !body.isEmpty then
          Stmt.exprConst (generate_function_docstring n a r stack.head?) :: transformBody stack body
        else transformBody stack body
      Stmt.funcDef n a r newBody
  | Stmt.asyncFuncDef n a r body =>
      let newBody :=
        if (get_docstring body).isNone && !body.isEmpty then
          Stmt.exprConst (generate_function_docstring n a r stack.head?) :: transformBody stack body
        else transformBody stack body
      Stmt.asyncFuncDef n a r newBody
  | Stmt.classDef n body =>
      let newBody :=
        if (get_docstring body).isNone && !body.isEmpty then
          Stmt.exprConst (generate_class_docstring n) :: transformBody (n :: stack) body
        else transformBody (n :: stack) body
      Stmt.classDef n newBody
  | s => s

/-- `generic_visit`: the transformer mapped over a statement list. -/
def transformBody (stack : List String) : List Stmt → List Stmt
  | [] => []
  | s :: rest => transformStmt stack s :: transformBody stack rest

end

/-- `process_file` minus the I/O: the transformer applied to the body of a
parsed module (the class stack is empty at top level). -/
def process_module (m : List Stmt) : List Stmt :=
  transformBody [] m

/-- Whether the first statement of a body is a string-constant expression
statement, i.e. whether `get_docstring` succeeds. -/
def headConst : List Stmt → Bool
  | Stmt.exprConst _ :: _ => true
  | _ => false

mutual

/-- A statement all of whose function/async-function/class definitions with
non-empty bodies already carry a leading docstring, recursively. -/
def stmtDocumented : Stmt → Bool
  | Stmt.funcDef _ _ _ body =>
      !((get_docstring body).isNone && !body.isEmpty) && bodyDocumented body
  | Stmt.asyncFuncDef _ _ _ body =>
      !((get_docstring body).isNone && !body.isEmpty) && bodyDocumented body
  | Stmt.classDef _ body =>
      !((get_docstring body).isNone && !body.isEmpty) && bodyDocumented body
  | _ => true

/-- `stmtDocumented` over a statement list. -/
def bodyDocumented : List Stmt → Bool
  | [] => true
  | s :: rest => stmtDocumented s && bodyDocumented rest

end

end Docweaver

namespace Garnish

/-- A Python function object as `_get_scope` sees it: the name of its
defining module (`inspect.getmodule(func).__name__`, absent when the module
cannot be determined), its `__name__`, and an identity token standing for
the object identity Python `is` compares. -/
structure PyFunc where
  moduleName : Option String
  name : String
  objId : Nat
deriving DecidableEq, Repr

/-- A class attribute as retrieved by `getattr(class_obj, func.__name__)`:
`funcId` is the identity of its `__func__` slot when the attribute has one
(a bound/unbound method object), and `valId` is the identity of the
attribute object itself. -/
structure ClassAttrVal where
  funcId : Option Nat
  valId : Nat
deriving DecidableEq, Repr

/-- A Python class: its `__name__` and its attribute dictionary. -/
structure PyClass where
  name : String
  attrs : List (String × ClassAttrVal)
deriving DecidableEq, Repr

/-- A Python object as the first positional argument: its `__class__`, or
`none` for an object lacking that attribute (the `hasattr` guard). -/
structure PyObj where
  cls : Option PyClass
deriving DecidableEq, Repr

/-- `_get_scope` of `garnish.py`. Starts from the module name (or the
`<unknown>` sentinel); when a first positional argument exists, has a class,
and that class has an attribute named like the function whose `__func__` is
the function or which is the function itself, the class name is interposed;
every other path appends just the function name. (The `except` clause of
the source produces the same plain form, so the total model needs no
separate failure branch.) -/
def _get_scope (func : PyFunc) (args : List PyObj) : String :=
  let scope := match func.moduleName with
    | some m => m
    | none => "<unknown>"
  match args with
  | obj :: _ =>
      match obj.cls with
      | some class_obj =>
          match class_obj.attrs.lookup func.name with
          | some class_method =>
              if (match class_method.funcId with
                  | some fid => fid == func.objId
                  | none => false)
                  || class_method.valId == func.objId then
                scope ++ "." ++ class_obj.name ++ "." ++ func.name
              else scope ++ "." ++ func.name
          | none => scope ++ "." ++ func.name
      | none => scope ++ "." ++ func.name
  | [] => scope ++ "." ++ func.name

/-- A runtime value as the `argtype` reporter sees it: only its
`type(value).__name__` matters. -/
structure PyValue where
  typeName : String
deriving DecidableEq, Repr

/-- Python `repr` of a list of strings, as an f-string renders it. -/
def pyListRepr (xs : List String) : String :=
  "[" ++ String.intercalate ", " (xs.map fun s => "'" ++ s ++ "'") ++ "]"

/-- A callable wrapped by a decorator: its `__name__`, its declared
positional parameter names (`inspect.getfullargspec(func).args`), and its
behaviour on positional and keyword arguments. -/
structure WrappedFunc (α : Type) where
  name : String
  argNames : List String
  call : List PyValue → List (String × PyValue) → α

/-- The `arg_types` list of the `argtype` wrapper:
`zip(arg_names, args)` pairs declared names with positional arguments,
stopping at the shorter sequence. -/
def argtype_arg_types (arg_names : List String) (args : List PyValue) : List String :=
  (arg_names.zip args).map fun p => p.1 ++ ": " ++ p.2.typeName

/-- The `argtype` decorator's wrapper applied to a call: produces the
printed report and forwards the call, returning the wrapped callable's
result. -/
def argtype {α : Type} (func : WrappedFunc α) (args : List PyValue)
    (kwargs : List (String × PyValue)) : String × α :=
  let arg_types := argtype_arg_types func.argNames args
  let kwarg_types := kwargs.map fun kv => kv.1 ++ ": " ++ kv.2.typeName
  let output := "Calling " ++ func.name ++ " with arguments:\n  " ++ pyListRepr arg_types
  let output := if kwarg_types.isEmpty then output
    else output ++ "\n  keyword-arguments: " ++ pyListRepr kwarg_types
  (output, func.call args kwargs)

/-- Outcome of running a Python block: a normal value or an in-flight
exception carrying its description. -/
inductive PyResult (α : Type) where
  | ok (v : α)
  | raised (e : String)
deriving DecidableEq, Repr

/-- Semantics of the Python `with` statement for a context manager whose
exit handler is `exitFn`: the body runs first; on every exit path the exit
handler runs exactly once, receiving the in-flight exception if any; the
exception is suppressed only when the exit handler returns `True` (in which
case the statement completes normally with `dflt` standing for the
suppressed continuation). -/
def pyWith {α : Type} (exitFn : Option String → List String × Bool)
    (body : List String × PyResult α) (dflt : α) : List String × PyResult α :=
  match body with
  | (prints, PyResult.ok v) =>
      let ep := (exitFn none).1
      (prints ++ ep, PyResult.ok v)
  | (prints, PyResult.raised e) =>
      let (ep, sup) := exitFn (some e)
      if sup then (prints ++ ep, PyResult.ok dflt)
      else (prints ++ ep, PyResult.raised e)

/-- `Timer.__exit__`: prints the single completion line (the elapsed time is
external-clock data, modelled as the already formatted string) and returns
`False`, never suppressing an exception. It ignores the exception info. -/
def Timer_exit (description : String) (elapsedStr : String) :
    Option String → List String × Bool :=
  fun _ => ([description ++ " took " ++ elapsedStr ++ " seconds"], false)

/-- A `with Timer(description): body` block. -/
def Timer_run {α : Type} (description elapsedStr : String)
    (body : List String × PyResult α) (dflt : α) : List String × PyResult α :=
  pyWith (Timer_exit description elapsedStr) body dflt

/-- `Profiler.__exit__`: disables the profiler, prints the header line and
the statistics table (modelled as the collected text), and returns `False`.
It ignores the exception info. -/
def Profiler_exit (description : String) (statsText : String) :
    Option String → List String × Bool :=
  fun _ => (["\nCPU Profile for " ++ description ++ ":", statsText], false)

/-- A `with Profiler(description): body` block. -/
def Profiler_run {α : Type} (description statsText : String)
    (body : List String × PyResult α) (dflt : α) : List String × PyResult α :=
  pyWith (Profiler_exit description statsText) body dflt

end Garnish

namespace Banner

/-- The environment `Logo` runs in: the outcome of reading
`Config.FONT_DIR` (an attribute access that can fail), the fonts already
registered with the engine (`FigletFont.getFonts()`), whether
`<font dir>/3d.flf` is a file, the outcome of installing it, and the
outcome of rendering the program name. -/
structure BannerEnv where
  fontDirAttr : Except String String
  installedFonts : List String
  fontFileIsFile : Bool
  installResult : Except String Unit
  renderResult : Except String String

/-- The body of the `try` block of `Logo`: register the font when missing
(raising `FileNotFoundError` when the font file is absent), render the
program name and produce the three bold-blue console lines. An `error`
value is an exception in flight inside the `try`. -/
def logoTryBody (env : BannerEnv) (fontDir : String) (version author : String) :
    Except String (List String) :=
  let step1 : Except String Unit :=
    if "3d" ∈ env.installedFonts then Except.ok ()
    else
      let custom_font := fontDir ++ "/3d.flf"
      if !env.fontFileIsFile then
        Except.error ("Font file '" ++ custom_font ++ "' not found.")
      else env.installResult
  match step1 with
  | Except.error e => Except.error e
  | Except.ok _ =>
      match env.renderResult with
      | Except.error e => Except.error e
      | Except.ok rendered =>
          Except.ok
            ["[bold blue]" ++ rendered ++ "[/bold blue]",
             "[bold blue]AUTHOR: " ++ author ++ "[/bold blue]",
             "[bold blue]VERSION: " ++ version ++ "[/bold blue]\n"]

/-- `Logo` of `banner.py`. `Path(Config.FONT_DIR)` is evaluated before the
`try` block, so a failure of that attribute access propagates to the caller
(`Except.error`); every failure inside the `try` is caught and converted to
the single bold-red console line, and the call returns normally
(`Except.ok` with the printed lines). -/
def Logo (env : BannerEnv) (version author : String) : Except String (List String) :=
  match env.fontDirAttr with
  | Except.error e => Except.error e
  | Except.ok fontDir =>
      match logoTryBody env fontDir version author with
      | Except.ok prints => Except.ok prints
      | Except.error e =>
          Except.ok ["[bold red]Error loading font: " ++ e ++ "[/bold red]"]

end Banner

namespace Logman

/-- A `RotatingFileHandler` as `get_logger` configures it: file name,
rotation cap in bytes, backup count, level, and the record format string. -/
structure FileHandlerRec where
  filename : String
  maxBytes : Nat
  backupCount : Nat
  level : Nat
  fmt : String
deriving DecidableEq, Repr

/-- A handler attached (or attachable) to a logger. The rich console
handler is constructed by the source but its `addHandler` line is commented
out, so it never appears in a logger's handler list. -/
inductive LogHandler where
  | rotatingFile (h : FileHandlerRec)
  | richHandler (level : Nat)
deriving DecidableEq, Repr

/-- A `logging.Logger`: its effective level (if set) and attached handlers. -/
structure PyLogger where
  level : Option Nat
  handlers : List LogHandler
deriving DecidableEq, Repr

/-- The record format string of the file handler in `get_logger`. -/
def file_formatter_fmt : String :=
  "[%(asctime)s.%(msecs)03d] [%(levelname)s] [%(module)s] - %(funcName)s: %(message)s"

/-- The body of `get_logger` acting on the logger fetched from the
registry: when the logger has no handlers, set its level from
configuration and attach the rotating file handler (5 MiB cap, 5 backups)
writing to `logs/<timestamp>.txt`; otherwise return the logger unchanged.
The rich handler is constructed in the source but never attached. -/
def get_logger_init (logLevel : Nat) (timestamp : String) (logger : PyLogger) : PyLogger :=
  if logger.handlers.isEmpty then
    ⟨some logLevel,
     logger.handlers
       ++ [LogHandler.rotatingFile
             ⟨"logs/" ++ timestamp ++ ".txt", 5 * 1024 * 1024, 5, logLevel, file_formatter_fmt⟩]⟩
  else logger

/-- `logging.getLogger(name)`: fetch the logger registered under `name`,
creating a fresh one (no level, no handlers) when absent. -/
def getLoggerFromRegistry (reg : List (String × PyLogger)) (name : String) : PyLogger :=
  match reg.lookup name with
  | some l => l
  | none => ⟨none, []⟩

/-- `get_logger` of `logman.py` acting on the process-wide registry:
returns the (possibly initialised) logger and the updated registry. -/
def get_logger (logLevel : Nat) (timestamp : String)
    (reg : List (String × PyLogger)) (name : String) :
    PyLogger × List (String × PyLogger) :=
  let logger := getLoggerFromRegistry reg name
  let logger := get_logger_init logLevel timestamp logger
  (logger, (name, logger) :: reg)

/-- The environment `collect_run_metadata` runs in: the outcome of
`subprocess.check_output` for the git call, of importing tensorflow and
reading its version, of importing numpy and reading its version, plus the
host name, interpreter version and UTC start timestamp. -/
structure MetaEnv where
  gitOutput : Except String String
  tfVersionResult : Except String String
  numpyVersionResult : Except String String
  hostname : String
  pythonVersion : String
  startedAt : String

/-- The mapping returned by `collect_run_metadata` (fields in the source's
key order: seed, git_sha, host, python, tensorflow, numpy, started_at). -/
structure RunMetadata where
  seed : Int
  git_sha : String
  host : String
  python : String
  tensorflow : String
  numpy : String
  started_at : String
deriving DecidableEq, Repr

/-- `collect_run_metadata` of `logman.py`: the git lookup and the
tensorflow import are individually guarded and fall back to "unknown" /
"not-imported"; the numpy import is unguarded, so its failure propagates
(`Except.error`). The git output is stripped of surrounding whitespace. -/
def collect_run_metadata (env : MetaEnv) (seed : Int) : Except String RunMetadata :=
  let git_sha := match env.gitOutput with
    | Except.ok out => out.trim
    | Except.error _ => "unknown"
  let tf_ver := match env.tfVersionResult with
    | Except.ok v => v
    | Except.error _ => "not-imported"
  match env.numpyVersionResult with
  | Except.error e => Except.error e
  | Except.ok npVersion =>
      Except.ok
        ⟨seed, git_sha, env.hostname, env.pythonVersion, tf_ver, npVersion, env.startedAt⟩

end Logman

namespace Docweaver

@[simp] theorem get_docstring_nil : get_docstring [] = none := rfl

@[simp] theorem get_docstring_cons_const (s : String) (rest : List Stmt) :
    get_docstring (Stmt.exprConst s :: rest) = some s := rfl

@[simp] theorem transformBody_nil (stack : List String) : transformBody stack [] = [] := by
  simp [transformBody]

@[simp] theorem transformBody_cons (stack : List String) (s : Stmt) (rest : List Stmt) :
    transformBody stack (s :: rest) = transformStmt stack s :: transformBody stack rest := by
  simp [transformBody]

@[simp] theorem transformStmt_exprConst (stack : List String) (s : String) :
    transformStmt stack (Stmt.exprConst s) = Stmt.exprConst s := by
  simp [transformStmt]

theorem get_docstring_isNone_eq (body : List Stmt) :
    (get_docstring body).isNone = !headConst body := by
  cases body with
  | nil => simp [get_docstring, headConst]
  | cons s rest => cases s <;> simp [get_docstring, headConst]

mutual

theorem transformStmt_headConst (stack : List String) (s : Stmt) :
    headConst [transformStmt stack s] = headConst [s] := by
  cases s <;> simp [transformStmt, headConst]

theorem transformBody_headConst (stack : List String) (body : List Stmt) :
    headConst (transformBody stack body) = headConst body := by
  cases body with
  | nil => simp
  | cons s rest => cases s <;> simp [transformStmt, headConst]

end

theorem transformBody_isEmpty (stack : List String) (body : List Stmt) :
    (transformBody stack body).isEmpty = body.isEmpty := by
  cases body <;> simp

theorem get_docstring_isNone_transformBody (stack : List String) (body : List Stmt) :
    (get_docstring (transformBody stack body)).isNone = (get_docstring body).isNone := by
  rw [get_docstring_isNone_eq, get_docstring_isNone_eq, transformBody_headConst]

mutual

theorem transformStmt_idem (stack : List String) (s : Stmt) :
    transformStmt stack (transformStmt stack s) = transformStmt stack s := by
  cases s with
  | funcDef n a r body =>
      by_cases h : ((get_docstring body).isNone && !body.isEmpty) = true
      · have e1 : transformStmt stack (Stmt.funcDef n a r body) =
            Stmt.funcDef n a r
              (Stmt.exprConst (generate_function_docstring n a r stack.head?) ::
                transformBody stack body) := by
          simp [transformStmt, h]
        rw [e1]
        simp [transformStmt, transformBody_idem]
      · simp [transformStmt, h, get_docstring_isNone_transformBody,
          transformBody_isEmpty, transformBody_idem]
  | asyncFuncDef n a r body =>
      by_cases h : ((get_docstring body).isNone && !body.isEmpty) = true
      · have e1 : transformStmt stack (Stmt.asyncFuncDef n a r body) =
            Stmt.asyncFuncDef n a r
              (Stmt.exprConst (generate_function_docstring n a r stack.head?) ::
                transformBody stack body) := by
          simp [transformStmt, h]
        rw [e1]
        simp [transformStmt, transformBody_idem]
      · simp [transformStmt, h, get_docstring_isNone_transformBody,
          transformBody_isEmpty, transformBody_idem]
  | classDef n body =>
      by_cases h : ((get_docstring body).isNone && !body.isEmpty) = true
      · have e1 : transformStmt stack (Stmt.classDef n body) =
            Stmt.classDef n
              (Stmt.exprConst (generate_class_docstring n) :: transformBody (n :: stack) body) := by
          simp [transformStmt, h]
        rw [e1]
        simp [transformStmt, transformBody_idem]
      · simp [transformStmt, h, get_docstring_isNone_transformBody,
          transformBody_isEmpty, transformBody_idem]
  | exprConst s => simp [transformStmt]
  | exprOther => simp [transformStmt]
  | passStmt => simp [transformStmt]
  | otherStmt => simp [transformStmt]

theorem transformBody_idem (stack : List String) (body : List Stmt) :
    transformBody stack (transformBody stack body) = transformBody stack body := by
  cases body with
  | nil => simp
  | cons s rest => simp [transformStmt_idem, transformBody_idem]

end

mutual

theorem transformStmt_documented (stack : List String) (s : Stmt)
    (h : stmtDocumented s = true) : transformStmt stack s = s := by
  cases s with
  | funcDef n a r body =>
      rw [stmtDocumented] at h
      obtain ⟨h1, h2⟩ := Bool.and_eq_true_iff.mp h
      simp only [Bool.not_eq_true'] at h1
      simp [transformStmt, h1, transformBody_documented stack body h2]
  | asyncFuncDef n a r body =>
      rw [stmtDocumented] at h
      obtain ⟨h1, h2⟩ := Bool.and_eq_true_iff.mp h
      simp only [Bool.not_eq_true'] at h1
      simp [transformStmt, h1, transformBody_documented stack body h2]
  | classDef n body =>
      rw [stmtDocumented] at h
      obtain ⟨h1, h2⟩ := Bool.and_eq_true_iff.mp h
      simp only [Bool.not_eq_true'] at h1
      simp [transformStmt, h1, transformBody_documented (n :: stack) body h2]
  | exprConst s => simp [transformStmt]
  | exprOther => simp [transformStmt]
  | passStmt => simp [transformStmt]
  | otherStmt => simp [transformStmt]

theorem transformBody_documented (stack : List String) (body : List Stmt)
    (h : bodyDocumented body = true) : transformBody stack body = body := by
  cases body with
  | nil => simp
  | cons s rest =>
      rw [bodyDocumented] at h
      obtain ⟨h1, h2⟩ := Bool.and_eq_true_iff.mp h
      simp [transformStmt_documented stack s h1, transformBody_documented stack rest h2]

end

/-- C1: for a module-level function definition with a non-empty body, no
leading documentation statement, annotated parameters, and a return-type
annotation, the generator inserts the skeleton as the new first statement;
its Args section lists each parameter as
`name (ann): TODO: describe parameter.` in declaration order, and the
Returns section is emitted if and only if the rendered return-annotation
text is not the word none compared case-insensitively. -/
theorem c1_module_function_skeleton
    (n : String) (a : PyArguments) (ra : String) (body : List Stmt)
    (hb : body ≠ [])
    (hd : get_docstring body = none)
    (hann : ∀ p ∈ extract_parameters a, p.2.isSome)
    (hne : extract_parameters a ≠ [])
    (hra : ra ≠ "") :
    transformStmt [] (Stmt.funcDef n a (some ra) body) =
      Stmt.funcDef n a (some ra)
        (Stmt.exprConst (generate_function_docstring n a (some ra) none) ::
          transformBody [] body) ∧
    generate_function_docstring_lines n a (some ra) none =
      [docstring_summary n none, "", autoNote, "", "Args:"]
        ++ (extract_parameters a).map
            (fun p => "    " ++ p.1 ++ " (" ++ p.2.getD "" ++ "): TODO: describe parameter.")
        ++ (if ra.toLower ≠ "none" then
              ["", "Returns:", "    " ++ ra ++ ": TODO: describe return value."]
            else []) := by
  constructor
  · have hbe : body.isEmpty = false := by
      simpa [List.isEmpty_iff] using hb
    have hdn : (get_docstring body).isNone = true := by simp [hd]
    simp [transformStmt, hdn, hbe]
  · have hdp : doc_params (extract_parameters a) false = extract_parameters a := by
      simp [doc_params]
    have hmap : (extract_parameters a).map param_line =
        (extract_parameters a).map
          (fun p => "    " ++ p.1 ++ " (" ++ p.2.getD "" ++ "): TODO: describe parameter.") := by
      apply List.map_congr_left
      intro p hp
      obtain ⟨v, hv⟩ := Option.isSome_iff_exists.mp (hann p hp)
      simp [param_line, hv]
    have hpe : (extract_parameters a).isEmpty = false := by
      simpa [List.isEmpty_iff] using hne
    have hret : returns_section (some ra) =
        (if ra.toLower ≠ "none" then
          ["", "Returns:", "    " ++ ra ++ ": TODO: describe return value."]
        else []) := by
      by_cases hc : ra.toLower = "none"
      · simp [returns_section, hra, hc]
      · simp [returns_section, hra, hc]
    simp [generate_function_docstring_lines, hdp, args_section, hpe, hmap, hret]

/-- Witness for C1: the spec's own example
`def add(a: int, b: int) -> int:` with a one-statement body. -/
theorem c1_module_function_skeleton_witness :
    (([Stmt.otherStmt] : List Stmt) ≠ []) ∧
    get_docstring [Stmt.otherStmt] = none ∧
    (∀ p ∈ extract_parameters ⟨[], [⟨"a", some "int"⟩, ⟨"b", some "int"⟩], none, [], none⟩,
      p.2.isSome) ∧
    extract_parameters ⟨[], [⟨"a", some "int"⟩, ⟨"b", some "int"⟩], none, [], none⟩ ≠ [] ∧
    ("int" : String) ≠ "" ∧
    (transformStmt []
        (Stmt.funcDef "add" ⟨[], [⟨"a", some "int"⟩, ⟨"b", some "int"⟩], none, [], none⟩
          (some "int") [Stmt.otherStmt]) =
      Stmt.funcDef "add" ⟨[], [⟨"a", some "int"⟩, ⟨"b", some "int"⟩], none, [], none⟩
        (some "int")
        (Stmt.exprConst
            (generate_function_docstring "add"
              ⟨[], [⟨"a", some "int"⟩, ⟨"b", some "int"⟩], none, [], none⟩ (some "int") none) ::
          transformBody [] [Stmt.otherStmt]) ∧
    generate_function_docstring_lines "add"
        ⟨[], [⟨"a", some "int"⟩, ⟨"b", some "int"⟩], none, [], none⟩ (some "int") none =
      [docstring_summary "add" none, "", autoNote, "", "Args:"]
        ++ (extract_parameters
              ⟨[], [⟨"a", some "int"⟩, ⟨"b", some "int"⟩], none, [], none⟩).map
            (fun p => "    " ++ p.1 ++ " (" ++ p.2.getD "" ++ "): TODO: describe parameter.")
        ++ (if ("int" : String).toLower ≠ "none" then
              ["", "Returns:", "    " ++ "int" ++ ": TODO: describe return value."]
            else [])) :=
  ⟨by simp, by decide, by decide, by decide, by decide,
   c1_module_function_skeleton "add"
     ⟨[], [⟨"a", some "int"⟩, ⟨"b", some "int"⟩], none, [], none⟩ "int" [Stmt.otherStmt]
     (by simp) (by decide) (by decide) (by decide) (by decide)⟩

/-- C2 counterexample: a module-level function whose body is the single
placeholder statement `pass` is NOT left unmodified — `pass` makes the body
non-empty, so the injector does insert a skeleton. -/
theorem c2_pass_body_counterexample :
    transformStmt [] (Stmt.funcDef "f" ⟨[], [], none, [], none⟩ none [Stmt.passStmt]) ≠
      Stmt.funcDef "f" ⟨[], [], none, [], none⟩ none [Stmt.passStmt] := by
  simp [transformStmt, get_docstring, transformBody]

/-- C2 (amended): only a definition whose body list is literally empty is
left unmodified by the injector; a body consisting of a single placeholder
`pass` statement counts as non-empty and does receive a skeleton. -/
theorem c2_empty_body_untouched :
    (∀ (stack : List String) (n : String) (a : PyArguments) (r : Option String),
      transformStmt stack (Stmt.funcDef n a r []) = Stmt.funcDef n a r []) ∧
    (∀ (stack : List String) (n : String) (a : PyArguments) (r : Option String),
      transformStmt stack (Stmt.asyncFuncDef n a r []) = Stmt.asyncFuncDef n a r []) ∧
    (∀ (stack : List String) (c : String),
      transformStmt stack (Stmt.classDef c []) = Stmt.classDef c []) ∧
    transformStmt [] (Stmt.funcDef "f" ⟨[], [], none, [], none⟩ none [Stmt.passStmt]) =
      Stmt.funcDef "f" ⟨[], [], none, [], none⟩ none
        [Stmt.exprConst
            (generate_function_docstring "f" ⟨[], [], none, [], none⟩ none none),
         Stmt.passStmt] := by
  refine ⟨?_, ?_, ?_, ?_⟩
  · intro stack n a r
    simp [transformStmt]
  · intro stack n a r
    simp [transformStmt]
  · intro stack c
    simp [transformStmt]
  · simp [transformStmt, get_docstring, transformBody]

/-- C3: a definition that already has a leading documentation statement is
never given another skeleton: on a module in which every definition is
documented the generator is the identity, and on any module at all, running
the generator twice equals running it once (structural idempotence). -/
theorem c3_documented_identity_and_idempotence :
    (∀ m : List Stmt, bodyDocumented m = true → process_module m = m) ∧
    (∀ m : List Stmt, process_module (process_module m) = process_module m) := by
  constructor
  · intro m h
    exact transformBody_documented [] m h
  · intro m
    exact transformBody_idem [] m

/-- Witness for C3: a one-function module whose function already carries a
docstring is returned unchanged. -/
theorem c3_documented_identity_and_idempotence_witness :
    bodyDocumented
        [Stmt.funcDef "f" ⟨[], [], none, [], none⟩ none
          [Stmt.exprConst "Existing docstring.", Stmt.passStmt]] = true ∧
    process_module
        [Stmt.funcDef "f" ⟨[], [], none, [], none⟩ none
          [Stmt.exprConst "Existing docstring.", Stmt.passStmt]] =
      [Stmt.funcDef "f" ⟨[], [], none, [], none⟩ none
        [Stmt.exprConst "Existing docstring.", Stmt.passStmt]] := by
  have h : bodyDocumented
      [Stmt.funcDef "f" ⟨[], [], none, [], none⟩ none
        [Stmt.exprConst "Existing docstring.", Stmt.passStmt]] = true := by
    simp [bodyDocumented, stmtDocumented, get_docstring]
  exact ⟨h, c3_documented_identity_and_idempotence.1 _ h⟩

/-- C4 counterexample: the claim says a method skeleton excludes exactly the
first implicit receiver parameter while listing every other parameter; for
the method `def m(self, x, cls)` of class `C`, the non-receiver parameter
named `cls` is required by the claim to be listed, but the source filters
out every parameter named self or cls, so its Args line is absent. -/
theorem c4_receiver_only_counterexample :
    "    cls: TODO: describe parameter." ∉
      generate_function_docstring_lines "m"
        ⟨[], [⟨"self", none⟩, ⟨"x", none⟩, ⟨"cls", none⟩], none, [], none⟩
        none (some "C") := by
  decide

/-- C4 (amended): for a method the generator excludes every parameter named
self or cls; in particular, when only the leading receiver bears such a
name, exactly the receiver is excluded and every other parameter is listed;
and a method named `__init__` inside class `Widget` receives a skeleton
whose summary line is "Initialise an instance of `Widget`.". -/
theorem c4_receiver_exclusion :
    (∀ (n c : String) (a : PyArguments) (r : Option String)
        (recv : String × Option String) (rest : List (String × Option String)),
      extract_parameters a = recv :: rest →
      (recv.1 = "self" ∨ recv.1 = "cls") →
      (∀ p ∈ rest, p.1 ≠ "self" ∧ p.1 ≠ "cls") →
      rest ≠ [] →
      generate_function_docstring_lines n a r (some c) =
        [docstring_summary n (some c), "", autoNote, "", "Args:"]
          ++ rest.map param_line ++ returns_section r) ∧
    (∀ (a : PyArguments) (r : Option String),
      (generate_function_docstring_lines "__init__" a r (some "Widget")).head? =
        some "Initialise an instance of `Widget`.") := by
  constructor
  · intro n c a r recv rest hp hrecv hrest hne
    have hdp : doc_params (extract_parameters a) true = rest := by
      rw [hp, doc_params, List.filter_cons]
      have hr : (!(true && (recv.1 == "self" || recv.1 == "cls"))) = false := by
        rcases hrecv with h | h <;> simp [h]
      rw [hr]
      simp only [Bool.false_eq_true, if_false]
      rw [List.filter_eq_self.mpr]
      intro p hmem
      obtain ⟨h1, h2⟩ := hrest p hmem
      simp [h1, h2]
    have hre : rest.isEmpty = false := by
      simpa [List.isEmpty_iff] using hne
    simp [generate_function_docstring_lines, hdp, args_section, hre]
  · intro a r
    simp [generate_function_docstring_lines, docstring_summary]

/-- Witness for C4: the method `def __init__(self, x: int)` of class
`Widget`. -/
theorem c4_receiver_exclusion_witness :
    extract_parameters ⟨[], [⟨"self", none⟩, ⟨"x", some "int"⟩], none, [], none⟩ =
        ("self", none) :: [("x", some "int")] ∧
    (("self", (none : Option String)).1 = "self" ∨
      ("self", (none : Option String)).1 = "cls") ∧
    (∀ p ∈ [(("x" : String), some "int")], p.1 ≠ "self" ∧ p.1 ≠ "cls") ∧
    ([(("x" : String), some "int")] ≠ []) ∧
    generate_function_docstring_lines "__init__"
        ⟨[], [⟨"self", none⟩, ⟨"x", some "int"⟩], none, [], none⟩ none (some "Widget") =
      [docstring_summary "__init__" (some "Widget"), "", autoNote, "", "Args:"]
        ++ [(("x" : String), some "int")].map param_line ++ returns_section none :=
  ⟨by decide, Or.inl rfl, by decide, by decide,
   c4_receiver_exclusion.1 "__init__" "Widget"
     ⟨[], [⟨"self", none⟩, ⟨"x", some "int"⟩], none, [], none⟩ none
     ("self", none) [("x", some "int")]
     (by decide) (Or.inl rfl) (by decide) (by decide)⟩

end Docweaver

namespace Garnish

/-- C5: the scope resolver yields exactly `module.function` for a free
function called with no positional arguments; exactly
`module.Class.method` when the first positional argument's class has an
attribute of the callable's name whose underlying function is the callable
(the bound-method case of `instance.m(...)`); and falls back to
`module.function` when the lookup fails. -/
theorem c5_scope_resolution (f : PyFunc) (m : String) (hm : f.moduleName = some m) :
    (_get_scope f [] = m ++ "." ++ f.name) ∧
    (∀ (obj : PyObj) (rest : List PyObj) (class_obj : PyClass) (av : ClassAttrVal),
      obj.cls = some class_obj →
      class_obj.attrs.lookup f.name = some av →
      av.funcId = some f.objId →
      _get_scope f (obj :: rest) = m ++ "." ++ class_obj.name ++ "." ++ f.name) ∧
    (∀ (obj : PyObj) (rest : List PyObj) (class_obj : PyClass),
      obj.cls = some class_obj →
      class_obj.attrs.lookup f.name = none →
      _get_scope f (obj :: rest) = m ++ "." ++ f.name) := by
  refine ⟨?_, ?_, ?_⟩
  · simp [_get_scope, hm]
  · intro obj rest class_obj av h1 h2 h3
    simp [_get_scope, hm, h1, h2, h3]
  · intro obj rest class_obj h1 h2
    simp [_get_scope, hm, h1, h2]

/-- Witness for C5: module `M`, free function and bound method `m` of class
`C`. -/
theorem c5_scope_resolution_witness :
    (⟨some "M", "m", 1⟩ : PyFunc).moduleName = some "M" ∧
    _get_scope ⟨some "M", "m", 1⟩ [] = "M" ++ "." ++ "m" ∧
    _get_scope ⟨some "M", "m", 1⟩ [⟨some ⟨"C", [("m", ⟨some 1, 7⟩)]⟩⟩] =
      "M" ++ "." ++ "C" ++ "." ++ "m" := by
  have h := c5_scope_resolution ⟨some "M", "m", 1⟩ "M" rfl
  exact ⟨rfl, h.1,
    h.2.1 ⟨some ⟨"C", [("m", ⟨some 1, 7⟩)]⟩⟩ [] ⟨"C", [("m", ⟨some 1, 7⟩)]⟩
      ⟨some 1, 7⟩ rfl (by decide) rfl⟩

/-- C6: the argument-type reporter pairs each declared parameter name with
the runtime type name of the corresponding positional argument, stopping at
the shorter of the two sequences (extra positional arguments are silently
omitted); it is a total function of the call (it never raises for any
argument count) and always invokes the wrapped callable, returning its
result. -/
theorem c6_argtype_reporter {α : Type} (func : WrappedFunc α)
    (args : List PyValue) (kwargs : List (String × PyValue)) :
    (argtype func args kwargs).2 = func.call args kwargs ∧
    argtype_arg_types func.argNames args =
      List.zipWith (fun n v => n ++ ": " ++ v.typeName) func.argNames args ∧
    (argtype_arg_types func.argNames args).length =
      min func.argNames.length args.length := by
  refine ⟨rfl, ?_, ?_⟩
  · induction func.argNames generalizing args with
    | nil => simp [argtype_arg_types]
    | cons n ns ih =>
        cases args with
        | nil => simp [argtype_arg_types]
        | cons v vs =>
            have := ih vs
            simp_all [argtype_arg_types]
  · simp [argtype_arg_types]

/-- C7: a `with Timer(...)`/`with Profiler(...)` block emits its completion
report exactly once, appended after the body's output, on every exit path
(both a normal result and an in-flight exception), and the body's outcome —
including a raised exception — is returned unchanged, never suppressed. -/
theorem c7_timer_profiler_exit {α : Type} (d estr stats : String)
    (prints : List String) (r : PyResult α) (dflt : α) :
    Timer_run d estr (prints, r) dflt =
      (prints ++ [d ++ " took " ++ estr ++ " seconds"], r) ∧
    Profiler_run d stats (prints, r) dflt =
      (prints ++ ["\nCPU Profile for " ++ d ++ ":", stats], r) := by
  cases r <;> simp [Timer_run, Profiler_run, pyWith, Timer_exit, Profiler_exit]

end Garnish

namespace Banner

/-- C8 counterexample: the claim says the banner renderer returns normally
for every input, including a missing configuration; but `Config.FONT_DIR`
is read before the `try` block, so when that attribute access fails the
failure propagates to the caller instead of being caught. -/
theorem c8_config_failure_counterexample :
    Logo
        ⟨Except.error "type object Config has no attribute FONT_DIR", [], false,
          Except.ok (), Except.error "render failed"⟩ "1.0.0" "A. Author" =
      Except.error "type object Config has no attribute FONT_DIR" := rfl

/-- C8 (amended): once the font-directory configuration has been read
successfully, the banner renderer returns normally on every input: every
failure raised inside the `try` block (missing font file, install failure,
rendering error) is caught and reported as the single bold-red console
error line. A failure of the configuration read itself, which happens
before the `try` block, still propagates. -/
theorem c8_try_block_containment (env : BannerEnv) (fontDir version author : String)
    (h : env.fontDirAttr = Except.ok fontDir) :
    (∃ prints, Logo env version author = Except.ok prints) ∧
    (∀ e, logoTryBody env fontDir version author = Except.error e →
      Logo env version author =
        Except.ok ["[bold red]Error loading font: " ++ e ++ "[/bold red]"]) ∧
    ("3d" ∉ env.installedFonts → env.fontFileIsFile = false →
      Logo env version author =
        Except.ok
          ["[bold red]Error loading font: " ++
            ("Font file '" ++ (fontDir ++ "/3d.flf") ++ "' not found.") ++ "[/bold red]"]) := by
  refine ⟨?_, ?_, ?_⟩
  · cases hb : logoTryBody env fontDir version author with
    | ok prints => exact ⟨prints, by simp [Logo, h, hb]⟩
    | error e =>
        exact ⟨["[bold red]Error loading font: " ++ e ++ "[/bold red]"],
          by simp [Logo, h, hb]⟩
  · intro e hb
    simp [Logo, h, hb]
  · intro h1 h2
    have hb : logoTryBody env fontDir version author =
        Except.error ("Font file '" ++ (fontDir ++ "/3d.flf") ++ "' not found.") := by
      simp [logoTryBody, h1, h2]
    simp [Logo, h, hb]

/-- Witness for C8: a configured font directory whose `3d.flf` file does
not exist — the error is printed and the call returns normally. -/
theorem c8_try_block_containment_witness :
    (⟨Except.ok "fonts", [], false, Except.ok (), Except.ok "ART"⟩ : BannerEnv).fontDirAttr =
        Except.ok "fonts" ∧
    Logo ⟨Except.ok "fonts", [], false, Except.ok (), Except.ok "ART"⟩ "1.0.0" "A. Author" =
      Except.ok
        ["[bold red]Error loading font: " ++
          ("Font file '" ++ ("fonts" ++ "/3d.flf") ++ "' not found.") ++ "[/bold red]"] := by
  refine ⟨rfl, ?_⟩
  exact (c8_try_block_containment
      ⟨Except.ok "fonts", [], false, Except.ok (), Except.ok "ART"⟩
      "fonts" "1.0.0" "A. Author" rfl).2.2 (by simp) rfl

end Banner

namespace Logman

/-- C9: requesting a logger by the same channel name twice yields a logger
with exactly one (rotating-file) sink attached, not two: the second call
finds sinks already attached, skips initialisation, and returns the handle
unchanged; and in general a logger that already has sinks is returned
unchanged. -/
theorem c9_logger_idempotent (lvl : Nat) (ts1 ts2 name : String)
    (reg : List (String × PyLogger))
    (h : (getLoggerFromRegistry reg name).handlers = []) :
    (get_logger lvl ts2 (get_logger lvl ts1 reg name).2 name).1 =
      (get_logger lvl ts1 reg name).1 ∧
    (get_logger lvl ts1 reg name).1.handlers =
      [LogHandler.rotatingFile
        ⟨"logs/" ++ ts1 ++ ".txt", 5 * 1024 * 1024, 5, lvl, file_formatter_fmt⟩] ∧
    (∀ (l : PyLogger) (lvl2 : Nat) (ts : String),
      l.handlers ≠ [] → get_logger_init lvl2 ts l = l) := by
  have hskip : ∀ (l : PyLogger) (lvl2 : Nat) (ts : String),
      l.handlers ≠ [] → get_logger_init lvl2 ts l = l := by
    intro l lvl2 ts hl
    have : l.handlers.isEmpty = false := by
      simpa [List.isEmpty_iff] using hl
    simp [get_logger_init, this]
  have h1 : (get_logger lvl ts1 reg name).1 =
      ⟨some lvl,
        [LogHandler.rotatingFile
          ⟨"logs/" ++ ts1 ++ ".txt", 5 * 1024 * 1024, 5, lvl, file_formatter_fmt⟩]⟩ := by
    simp [get_logger, get_logger_init, h]
  have h2 : (get_logger lvl ts1 reg name).2 =
      (name, (get_logger lvl ts1 reg name).1) :: reg := by
    simp [get_logger]
  refine ⟨?_, by rw [h1], hskip⟩
  rw [h2]
  have hfetch : getLoggerFromRegistry ((name, (get_logger lvl ts1 reg name).1) :: reg) name =
      (get_logger lvl ts1 reg name).1 := by
    simp [getLoggerFromRegistry, List.lookup]
  show get_logger_init lvl ts2
      (getLoggerFromRegistry ((name, (get_logger lvl ts1 reg name).1) :: reg) name) =
    (get_logger lvl ts1 reg name).1
  rw [hfetch]
  exact hskip _ lvl ts2 (by rw [h1]; simp)

/-- Witness for C9: an empty registry, channel name `app`, two requests
with different timestamps. -/
theorem c9_logger_idempotent_witness :
    (getLoggerFromRegistry [] "app").handlers = [] ∧
    (get_logger 20 "20260101_000000" (get_logger 20 "20251231_235959" [] "app").2 "app").1 =
      (get_logger 20 "20251231_235959" [] "app").1 ∧
    (get_logger 20 "20251231_235959" [] "app").1.handlers =
      [LogHandler.rotatingFile
        ⟨"logs/" ++ "20251231_235959" ++ ".txt", 5 * 1024 * 1024, 5, 20,
          file_formatter_fmt⟩] := by
  have h := c9_logger_idempotent 20 "20251231_235959" "20260101_000000" "app" [] rfl
  exact ⟨rfl, h.1, h.2.1⟩

/-- C10: when the git invocation fails, `collect_run_metadata` still
returns a mapping whose git_sha entry is "unknown", whose seed entry is the
input seed and whose remaining entries are all populated from the
environment; when the tensorflow import fails, the tensorflow entry is
"not-imported"; neither guarded lookup lets its failure propagate (the
result is `ok` despite either failure). -/
theorem c10_metadata_fallbacks (env : MetaEnv) (seed : Int) (npv : String)
    (hnp : env.numpyVersionResult = Except.ok npv) :
    (∀ ge, env.gitOutput = Except.error ge →
      collect_run_metadata env seed =
        Except.ok
          ⟨seed, "unknown", env.hostname, env.pythonVersion,
            (match env.tfVersionResult with
             | Except.ok v => v
             | Except.error _ => "not-imported"),
            npv, env.startedAt⟩) ∧
    (∀ te, env.tfVersionResult = Except.error te →
      collect_run_metadata env seed =
        Except.ok
          ⟨seed,
            (match env.gitOutput with
             | Except.ok out => out.trim
             | Except.error _ => "unknown"),
            env.hostname, env.pythonVersion, "not-imported", npv, env.startedAt⟩) := by
  constructor
  · intro ge hg
    simp [collect_run_metadata, hnp, hg]
  · intro te ht
    simp [collect_run_metadata, hnp, ht]

/-- Witness for C10: git unavailable and tensorflow not importable; seed 7
comes back as 7, git_sha as "unknown", tensorflow as "not-imported", the
rest populated. -/
theorem c10_metadata_fallbacks_witness :
    (⟨Except.error "git: not found", Except.error "ModuleNotFoundError",
        Except.ok "1.26.0", "host1", "3.11.0", "2026-10-12T00:00:00+00:00"⟩ :
      MetaEnv).numpyVersionResult = Except.ok "1.26.0" ∧
    collect_run_metadata
        ⟨Except.error "git: not found", Except.error "ModuleNotFoundError",
          Except.ok "1.26.0", "host1", "3.11.0", "2026-10-12T00:00:00+00:00"⟩ 7 =
      Except.ok
        ⟨7, "unknown", "host1", "3.11.0", "not-imported", "1.26.0",
          "2026-10-12T00:00:00+00:00"⟩ := by
  refine ⟨rfl, ?_⟩
  have h := (c10_metadata_fallbacks
      ⟨Except.error "git: not found", Except.error "ModuleNotFoundError",
        Except.ok "1.26.0", "host1", "3.11.0", "2026-10-12T00:00:00+00:00"⟩
      7 "1.26.0" rfl).1 "git: not found" rfl
  simpa using h

end Logman
